import Mathlib

/-
Verification development for the AI-Scamming-Simulation repository.

The repository is a FastAPI gateway (src/server/server.py) in front of two
LLM backend adapters (src/backend/generative/llama_3_2_3b_instruct.py and
mistral.py).  This file gives a shallow embedding of the gateway logic:

  * text is modelled as a list of characters (Str := List Char), with the
    Python string operations (strip, split, splitlines, startswith) defined
    structurally so that every definition evaluates by kernel reduction;
    line boundaries are modelled as the newline and carriage-return
    characters handled by Python splitlines on ASCII text;
  * wall-clock timestamps and the rate-limit window are modelled as
    integers in abstract time units;
  * the pydantic models are modelled by explicit validation functions that
    follow pydantic v2 semantics: Field length constraints run first, the
    mode="after" field validators run afterwards on the already constrained
    value;
  * the two HTTP endpoints are modelled as pure pipeline functions over an
    abstract backend capability (Str -> Option Str, none standing for any
    adapter failure such as timeout, connection or HTTP error); the outcome
    records whether the backend was invoked and the new rate-limiter state.
-/

namespace Scam

/-- Text is modelled as a list of characters. -/
abbrev Str := List Char

/-- The characters stripped by the Python str.strip() default whitespace set
(ASCII part: space, tab, newline, carriage return, vertical tab, form feed). -/
def pyIsSpace (c : Char) : Bool :=
  c = ' ' || c = '\t' || c = '\n' || c = '\r' || c = Char.ofNat 11 || c = Char.ofNat 12

/-- Python str.strip(): remove leading and trailing whitespace. -/
def pyStrip (s : Str) : Str :=
  ((s.dropWhile pyIsSpace).reverse.dropWhile pyIsSpace).reverse

/-- Python str.split(sep) for a one-character separator: "".split(sep) is [""],
and separators at the ends produce empty pieces. -/
def pySplitChar (sep : Char) : Str → List Str
  | [] => [[]]
  | c :: cs =>
    if c = sep then [] :: pySplitChar sep cs
    else
      match pySplitChar sep cs with
      | [] => [[c]]
      | h :: t => (c :: h) :: t

/-- Python str.splitlines() on ASCII text: split at newline, carriage return
or carriage-return newline, with no empty final piece for a trailing
terminator, and [] on the empty string. -/
def pySplitlines : Str → List Str
  | [] => []
  | '\r' :: '\n' :: cs => [] :: pySplitlines cs
  | c :: cs =>
    if c = '\n' || c = '\r' then [] :: pySplitlines cs
    else
      match pySplitlines cs with
      | [] => [[c]]
      | h :: t => (c :: h) :: t

/-- Python str.startswith(p): p is a leading segment of s. -/
def pyStartswith : Str → Str → Bool
  | _, [] => true
  | [], _ :: _ => false
  | c :: cs, p :: ps => c = p && pyStartswith cs ps

/-- RateLimiter.is_allowed (src/server/server.py lines 73-85) for one client:
given the configured window and request cap, the stored timestamp list of the
client and the current time, first drop every stored timestamp that is not
strictly within the window (the Python keep condition is
now - req_time < timedelta(seconds=window)), then reject if at least cap
timestamps remain, otherwise record now and admit.  Returns the admit
decision and the new stored list. -/
def is_allowed (window cap : ℤ) (requests : List ℤ) (now : ℤ) : Bool × List ℤ :=
  let kept := requests.filter fun t => now - t < window
  if cap ≤ (kept.length : ℤ) then (false, kept)
  else (true, kept ++ [now])

/-- Run a sequence of is_allowed calls for one client, collecting the admit
decisions and threading the stored-timestamp state. -/
def runAdmits (window cap : ℤ) (s : List ℤ) : List ℤ → List Bool × List ℤ
  | [] => ([], s)
  | t :: ts =>
    let r := is_allowed window cap s t
    let rest := runAdmits window cap r.2 ts
    (r.1 :: rest.1, rest.2)

/-- The admit operation exactly as claim C1 words it: evict the timestamps
strictly older than now minus the window (keep t with now - window ≤ t),
then reject without recording if at least cap remain, else record now. -/
def admit_claimC1 (window cap : ℤ) (requests : List ℤ) (now : ℤ) : Bool × List ℤ :=
  let kept := requests.filter fun t => now - window ≤ t
  if cap ≤ (kept.length : ℤ) then (false, kept)
  else (true, kept ++ [now])

/-- The message role (server.py line 140): Literal["scammer", "user"],
enforced by the type itself. -/
inductive Role where
  | scammer
  | user
deriving DecidableEq, Repr

/-- Python str.title() applied to a role literal, as in
f"{message.role.title()}: {message.content}" (server.py line 268). -/
def Role.title : Role → Str
  | .scammer => ("Scammer").toList
  | .user => ("User").toList

/-- Pydantic model Message (server.py lines 139-148). -/
structure Message where
  role : Role
  content : Str
deriving DecidableEq, Repr

/-- The validation failure kinds raised by the pydantic models of server.py:
Field length constraints and the custom field validators. -/
inductive ValErr where
  | stringTooShort
  | stringTooLong
  | contentEmpty
  | textEmpty
  | listTooShort
  | listTooLong
  | conversationTooLong
deriving DecidableEq, Repr

/-- Validation of Message.content (server.py lines 141-148) with pydantic v2
semantics: the Field constraints min_length=1 and max_length=1000 are checked
on the raw value first, then the mode="after" validator
content_must_not_be_empty rejects values that are empty after strip and
returns the stripped value. -/
def Message.validateContent (v : Str) : Except ValErr Str :=
  if v.length < 1 then .error .stringTooShort
  else if 1000 < v.length then .error .stringTooLong
  else if pyStrip v = [] then .error .contentEmpty
  else .ok (pyStrip v)

/-- Validation of a whole Message: the role is already enforced by the type,
the content is validated and replaced by its stripped form. -/
def Message.validate (m : Message) : Except ValErr Message :=
  match Message.validateContent m.content with
  | .error e => .error e
  | .ok w => .ok ⟨m.role, w⟩

/-- Validate every message of a conversation in order, stopping at the first
failure, as pydantic does for the items of a typed list. -/
def validateMessages : List Message → Except ValErr (List Message)
  | [] => .ok []
  | m :: ms =>
    match m.validate with
    | .error e => .error e
    | .ok m2 =>
      match validateMessages ms with
      | .error e => .error e
      | .ok ms2 => .ok (m2 :: ms2)

/-- Validation of ConversationRequest (server.py lines 150-159): the Field
constraints min_length=1 and max_length=50 on the list, the per-item Message
validation, and then the mode="after" validator validate_conversation_length,
which sums the lengths of the (already validated, hence stripped) message
contents and rejects totals above the configured maximum
(config.MAX_CONVERSATION_LENGTH, default 5000). -/
def ConversationRequest.validate (maxConv : ℕ) (conversation : List Message) :
    Except ValErr (List Message) :=
  if conversation.length < 1 then .error .listTooShort
  else if 50 < conversation.length then .error .listTooLong
  else
    match validateMessages conversation with
    | .error e => .error e
    | .ok ms =>
      if maxConv < (ms.map fun m => m.content.length).sum then .error .conversationTooLong
      else .ok ms

/-- Validation of EmailInput.text (server.py lines 161-169): Field constraints
min_length=1 and max_length=config.MAX_TEXT_LENGTH (default 2000) on the raw
value, then the mode="after" validator text_must_not_be_empty, which rejects
values that are empty after strip and returns the stripped value. -/
def EmailInput.validate (maxText : ℕ) (v : Str) : Except ValErr Str :=
  if v.length < 1 then .error .stringTooShort
  else if maxText < v.length then .error .stringTooLong
  else if pyStrip v = [] then .error .textEmpty
  else .ok (pyStrip v)

/-- ClassificationResponse (server.py lines 171-174). -/
structure ClassificationResponse where
  label : Str
  tags : List Str
  justification : Str
deriving DecidableEq, Repr

/-- ReplyResponse (server.py lines 176-178). -/
structure ReplyResponse where
  reply : Str
  conversation_length : ℕ
deriving DecidableEq, Repr

/-- The classification parse of classify_email (server.py lines 225-243):
split the backend output into lines, fail when fewer than two lines are
present, otherwise split the first line on commas, take the first token
stripped as the label, the remaining tokens stripped as the tags (the code
conditional on len(labels) > 1 is kept as written), and the second line
stripped as the justification; further lines are never read. -/
def parse_classification (output : Str) : Option ClassificationResponse :=
  let lines := pySplitlines output
  if lines.length < 2 then none
  else
    let labels := pySplitChar ',' lines.headI
    let prediction_label := pyStrip labels.headI
    let tags := if 1 < labels.length then (labels.drop 1).map pyStrip else []
    let justification := pyStrip (lines.getD 1 [])
    some ⟨prediction_label, tags, justification⟩

/-- SecureLlamaClient.clean_reply (llama_3_2_3b_instruct.py lines 20-26):
strip a single leading "User:" or "Scammer:" and trim the remainder, or just
trim the whole string. -/
def clean_reply (reply : Str) : Str :=
  if pyStartswith reply (("User:").toList) then
    pyStrip (reply.drop (("User:").toList).length)
  else if pyStartswith reply (("Scammer:").toList) then
    pyStrip (reply.drop (("Scammer:").toList).length)
  else pyStrip reply

/-- The flattened transcript of generate_reply_api (server.py lines 267-270):
each message rendered as "<Role>: <content>" with the role in display casing,
joined by newlines in input order. -/
def conversation_text (msgs : List Message) : Str :=
  List.intercalate (("\n").toList)
    (msgs.map fun m => m.role.title ++ (": ").toList ++ m.content)

/-- The failure taxonomy of the gateway, one constructor per raise site of
server.py (names follow the taxonomy of the design description; the generic
except-blocks of the handlers re-wrap server-side failures into a uniform
500 response without changing their class). -/
inductive ApiError where
  | unauthorized
  | rateLimited
  | validation (e : ValErr)
  | backendFailure
  | emptyBackendOutput
  | malformedBackendResponse
  | emptyGeneration
deriving DecidableEq, Repr

/-- Whether a failure is reported as a client error (HTTP 4xx): invalid API
key (401), rate limiting (429) and payload validation (400/422). -/
def ApiError.isClientError : ApiError → Bool
  | .unauthorized => true
  | .rateLimited => true
  | .validation _ => true
  | _ => false

/-- Whether an Except value is a failure. -/
def isError : Except ε α → Bool
  | .error _ => true
  | .ok _ => false

/-- Whether a gateway result is a failure reported as a client error. -/
def resultIsClientError : Except ApiError α → Bool
  | .error e => e.isClientError
  | .ok _ => false

/-- The outcome of one request: the structured result, the rate-limiter state
for the client after the call, and whether a backend capability was invoked. -/
structure GatewayOutcome (α : Type) where
  result : Except ApiError α
  state : List ℤ
  backendCalled : Bool

/-- The classify endpoint (server.py lines 202-250) for one client: FastAPI
resolves the dependencies in order (verify_api_key, then check_rate_limit,
which calls is_allowed and so evicts and possibly records), then validates
the EmailInput body, and only then does the handler body run, invoking the
classification backend capability with the validated stripped text.  The
backend is abstracted as Str -> Option Str; none stands for any adapter
failure.  An empty backend output fails before the parse, a parse failure is
the malformed-response error, otherwise the parsed classification is
returned. -/
def classify_email (apiKey presented : Str) (window cap : ℤ) (st : List ℤ) (now : ℤ)
    (maxText : ℕ) (text : Str) (backend : Str → Option Str) :
    GatewayOutcome ClassificationResponse :=
  if presented = apiKey then
    let r := is_allowed window cap st now
    if r.1 then
      match EmailInput.validate maxText text with
      | .error e => ⟨.error (.validation e), r.2, false⟩
      | .ok t =>
        match backend t with
        | none => ⟨.error .backendFailure, r.2, true⟩
        | some output =>
          if output = [] then ⟨.error .emptyBackendOutput, r.2, true⟩
          else
            match parse_classification output with
            | none => ⟨.error .malformedBackendResponse, r.2, true⟩
            | some resp => ⟨.ok resp, r.2, true⟩
    else ⟨.error .rateLimited, r.2, false⟩
  else ⟨.error .unauthorized, st, false⟩

/-- The generate-reply endpoint (server.py lines 252-293) for one client:
dependencies as in classify_email, then ConversationRequest validation, then
the handler flattens the validated conversation into the transcript, invokes
the reply backend capability (the llama adapter returns clean_reply of the
raw model text, so the cleanup is applied to the backend content here), fails
when the cleaned reply is empty, and otherwise returns the stripped reply
together with the character count of the transcript. -/
def generate_reply_api (apiKey presented : Str) (window cap : ℤ) (st : List ℤ) (now : ℤ)
    (maxConv : ℕ) (conversation : List Message) (backend : Str → Option Str) :
    GatewayOutcome ReplyResponse :=
  if presented = apiKey then
    let r := is_allowed window cap st now
    if r.1 then
      match ConversationRequest.validate maxConv conversation with
      | .error e => ⟨.error (.validation e), r.2, false⟩
      | .ok msgs =>
        let ct := conversation_text msgs
        match backend ct with
        | none => ⟨.error .backendFailure, r.2, true⟩
        | some raw =>
          let reply := clean_reply raw
          if reply = [] then ⟨.error .emptyGeneration, r.2, true⟩
          else ⟨.ok ⟨pyStrip reply, ct.length⟩, r.2, true⟩
    else ⟨.error .rateLimited, r.2, false⟩
  else ⟨.error .unauthorized, st, false⟩

end Scam

namespace Scam

/-- Helper: the keep predicate of is_allowed agrees with evicting exactly the
timestamps whose age is at least the window. -/
theorem filter_keep_age_lt (window now : ℤ) (s : List ℤ) :
    (s.filter fun t => now - t < window) = s.filter fun t => !(window ≤ now - t) := by
  apply List.filter_congr
  intro t _
  by_cases h : window ≤ now - t
  · have h2 : ¬ (now - t < window) := not_lt.mpr h
    simp [h, h2]
  · have h2 : now - t < window := not_le.mp h
    simp [h, h2]

/-- C1 (amended): one call of the rate limiter admit operation first evicts
every recorded timestamp whose age now - t is at least the window (not only
those strictly older than now minus the window), then returns false without
recording now if at least cap timestamps remain, and otherwise appends now
and returns true. -/
theorem is_allowed_evicts_at_window (window cap : ℤ) (s : List ℤ) (now : ℤ) :
    is_allowed window cap s now =
      if cap ≤ ((s.filter fun t => !(window ≤ now - t)).length : ℤ)
      then (false, s.filter fun t => !(window ≤ now - t))
      else (true, (s.filter fun t => !(window ≤ now - t)) ++ [now]) := by
  unfold is_allowed
  rw [filter_keep_age_lt]

/-- C1 counterexample: with window 60, cap 10, ten stored timestamps at time 0
and now = 60, the claimed operation (evict only strictly older than
now - window = 0) keeps all ten timestamps and rejects, but the code evicts
the timestamps whose age equals the window exactly and admits. -/
theorem is_allowed_boundary_counterexample :
    is_allowed 60 10 (List.replicate 10 0) 60 = (true, [60]) ∧
    admit_claimC1 60 10 (List.replicate 10 0) 60 = (false, List.replicate 10 0) ∧
    is_allowed 60 10 (List.replicate 10 0) 60 ≠ admit_claimC1 60 10 (List.replicate 10 0) 60 := by
  refine ⟨by decide, by decide, by decide⟩

/-- Helper for C5: starting from state s, a run of calls whose times are all
strictly within the window of every time in the combined history, and whose
total count stays at or below the cap, is admitted at every step and ends
with the full history recorded in order. -/
theorem runAdmits_all_admitted (window cap : ℤ) :
    ∀ (ts s : List ℤ),
      ((s.length : ℤ) + ts.length ≤ cap) →
      (∀ u ∈ ts, ∀ t ∈ s ++ ts, u - t < window) →
      runAdmits window cap s ts = (List.replicate ts.length true, s ++ ts)
  | [], s => by
    intro _ _
    simp [runAdmits]
  | t :: ts, s => by
    intro hcount hin
    have hkeep : s.filter (fun x => t - x < window) = s := by
      apply List.filter_eq_self.mpr
      intro x hx
      simp only [decide_eq_true_eq]
      exact hin t (List.mem_cons_self t ts) x (List.mem_append_left _ hx)
    have hlt : ¬ (cap ≤ (s.length : ℤ)) := by
      have hc := hcount
      simp only [List.length_cons] at hc
      push_cast at hc
      omega
    have hstep : is_allowed window cap s t = (true, s ++ [t]) := by
      unfold is_allowed
      rw [hkeep, if_neg hlt]
    have hrec : runAdmits window cap (s ++ [t]) ts
        = (List.replicate ts.length true, (s ++ [t]) ++ ts) := by
      apply runAdmits_all_admitted window cap ts (s ++ [t])
      · have hc := hcount
        simp only [List.length_cons] at hc
        push_cast at hc
        simp only [List.length_append, List.length_singleton]
        push_cast
        omega
      · intro u hu x hx
        rcases List.mem_append.mp hx with hx1 | hx2
        · rcases List.mem_append.mp hx1 with hx3 | hx4
          · exact hin u (List.mem_cons_of_mem _ hu) x (List.mem_append_left _ hx3)
          · have : x = t := by simpa using hx4
            subst this
            exact hin u (List.mem_cons_of_mem _ hu) x
              (List.mem_append_right _ (List.mem_cons_self _ _))
        · exact hin u (List.mem_cons_of_mem _ hu) x
            (List.mem_append_right _ (List.mem_cons_of_mem _ hx2))
    unfold runAdmits
    simp only [hstep, hrec]
    simp [List.length_cons, List.replicate_succ, List.append_assoc]

/-- C5: for any client starting fresh, after cap admitted requests all lying
within one window, a further request still within the window of all of them
is rejected, and once the window has elapsed since every one of those
admitted requests the next request is admitted again; the request times are
non-decreasing throughout (the Pairwise hypothesis records that the call
sequence is issued in time order; the admit decisions depend only on the
listed age bounds). -/
theorem rate_limit_cycle (window cap : ℤ) (ts : List ℤ) (u v : ℤ)
    (hcap : 0 < cap) (hlen : (ts.length : ℤ) = cap)
    (_hmono : List.Pairwise (· ≤ ·) (ts ++ [u, v]))
    (hspan : ∀ a ∈ ts, ∀ b ∈ ts, a - b < window)
    (hu : ∀ t ∈ ts, u - t < window)
    (hv : ∀ t ∈ ts, window ≤ v - t) :
    (runAdmits window cap [] ts).1 = List.replicate ts.length true ∧
    (is_allowed window cap (runAdmits window cap [] ts).2 u).1 = false ∧
    (is_allowed window cap (is_allowed window cap (runAdmits window cap [] ts).2 u).2 v).1
      = true := by
  have hrun : runAdmits window cap [] ts = (List.replicate ts.length true, ts) := by
    have := runAdmits_all_admitted window cap ts []
      (by simp; omega) (by intro a ha b hb; simp at hb; exact hspan a ha b hb)
    simpa using this
  have hkeepu : ts.filter (fun t => u - t < window) = ts := by
    apply List.filter_eq_self.mpr
    intro x hx
    simp only [decide_eq_true_eq]
    exact hu x hx
  have hrej : is_allowed window cap ts u = (false, ts) := by
    unfold is_allowed
    rw [hkeepu, if_pos (by omega)]
  have hkeepv : ts.filter (fun t => v - t < window) = ([] : List ℤ) := by
    apply List.filter_eq_nil_iff.mpr
    intro x hx
    simp only [decide_eq_true_eq]
    have := hv x hx
    omega
  have hadm : is_allowed window cap ts v = (true, [v]) := by
    unfold is_allowed
    rw [hkeepv]
    simp only [List.length_nil, Nat.cast_zero]
    rw [if_neg (by omega)]
    rfl
  rw [hrun]
  refine ⟨rfl, ?_, ?_⟩
  · rw [hrej]
  · rw [hrej, hadm]

/-- C5 witness: with window 60, cap 10, ten admitted requests at time 0,
an eleventh request at time 30 is rejected and a request at time 60 is
admitted again. -/
theorem rate_limit_cycle_witness :
    (runAdmits 60 10 [] (List.replicate 10 0)).1
      = List.replicate (List.replicate 10 (0 : ℤ)).length true ∧
    (is_allowed 60 10 (runAdmits 60 10 [] (List.replicate 10 0)).2 30).1 = false ∧
    (is_allowed 60 10 (is_allowed 60 10 (runAdmits 60 10 [] (List.replicate 10 0)).2 30).2 60).1
      = true :=
  rate_limit_cycle 60 10 (List.replicate 10 0) 30 60 (by decide) (by decide)
    (by decide) (by decide) (by decide) (by decide)

/-- C10: immediately after any call of the admit operation, every stored
timestamp of the queried client is strictly within the window of now, and,
provided the stored count was at most cap before the call, it is at most cap
after it as well (the window is positive, as the configured default 60 is). -/
theorem rate_limiter_invariant (window cap : ℤ) (s : List ℤ) (now : ℤ)
    (hw : 0 < window) (hlen : (s.length : ℤ) ≤ cap) :
    (∀ t ∈ (is_allowed window cap s now).2, now - t < window) ∧
    (((is_allowed window cap s now).2.length : ℤ) ≤ cap) := by
  unfold is_allowed
  by_cases hc : cap ≤ ((s.filter fun t => now - t < window).length : ℤ)
  · rw [if_pos hc]
    constructor
    · intro t ht
      have := List.of_mem_filter ht
      simpa using this
    · have hle : (s.filter fun t => now - t < window).length ≤ s.length :=
        List.length_filter_le _ _
      push_cast at hle ⊢
      omega
  · rw [if_neg hc]
    constructor
    · intro t ht
      rcases List.mem_append.mp ht with h1 | h2
      · have := List.of_mem_filter h1
        simpa using this
      · have : t = now := by simpa using h2
        subst this
        omega
    · simp only [List.length_append, List.length_singleton]
      push_cast
      push_cast at hc
      omega

/-- C10 witness: a concrete call with window 60, cap 10, two stored
timestamps and now = 30 keeps every stored timestamp within the window and
the count at most the cap. -/
theorem rate_limiter_invariant_witness :
    (∀ t ∈ (is_allowed 60 10 [0, 5] 30).2, 30 - t < 60) ∧
    (((is_allowed 60 10 [0, 5] 30).2.length : ℤ) ≤ 10) :=
  rate_limiter_invariant 60 10 [0, 5] 30 (by decide) (by decide)

/-- Helper: dropping one element of a list with fewer than two elements
leaves nothing. -/
theorem drop_one_eq_nil_of_short {α : Type} (l : List α) (h : ¬ 1 < l.length) :
    l.drop 1 = [] := by
  cases l with
  | nil => rfl
  | cons a t =>
    cases t with
    | nil => rfl
    | cons b t2 =>
      exfalso
      apply h
      simp [List.length_cons]

/-- C2: the classification parse fails when the backend text has fewer than
two lines; otherwise the label is the first comma token of the first line
trimmed, the tags are the remaining comma tokens trimmed (empty when there
are none), the justification is the second line trimmed, and lines beyond
the second are ignored; the two-line example from the scenario parses to
label Scam, tags Urgency and Financial, and the given justification. -/
theorem classify_parse_contract :
    (∀ output : Str, (pySplitlines output).length < 2 →
      parse_classification output = none) ∧
    (∀ output l1 l2 rest, pySplitlines output = l1 :: l2 :: rest →
      parse_classification output =
        some ⟨pyStrip (pySplitChar ',' l1).headI,
              ((pySplitChar ',' l1).drop 1).map pyStrip,
              pyStrip l2⟩) ∧
    parse_classification (("Scam, Urgency, Financial\nClassic advance-fee fraud pattern.").toList)
      = some ⟨("Scam").toList, [("Urgency").toList, ("Financial").toList],
              ("Classic advance-fee fraud pattern.").toList⟩ := by
  refine ⟨?_, ?_, by decide⟩
  · intro output h
    unfold parse_classification
    simp [h]
  · intro output l1 l2 rest h
    unfold parse_classification
    simp only [h, List.length_cons, List.headI, List.getD, List.getElem?_cons_succ,
      List.getElem?_cons_zero, Option.getD_some]
    rw [if_neg (by omega)]
    by_cases hl : 1 < (pySplitChar ',' l1).length
    · rw [if_pos hl]
      rfl
    · rw [if_neg hl, drop_one_eq_nil_of_short _ hl]
      simp

/-- C2 witness: a one-line input fails the parse and a concrete two-line
input parses to the described components. -/
theorem classify_parse_contract_witness :
    parse_classification (("x").toList) = none ∧
    parse_classification (("a\nb").toList) =
      some ⟨pyStrip (pySplitChar ',' (("a").toList)).headI,
            ((pySplitChar ',' (("a").toList)).drop 1).map pyStrip,
            pyStrip (("b").toList)⟩ :=
  ⟨classify_parse_contract.1 (("x").toList) (by decide),
   classify_parse_contract.2.1 (("a\nb").toList) (("a").toList) (("b").toList) [] (by decide)⟩

set_option maxRecDepth 10000 in
/-- C3 counterexample: a content string of 1001 whitespace characters is
rejected by the pydantic Field constraint max_length=1000 as too long, not as
empty content: the raw length checks run before the trimming validator, so a
whitespace-only string is not rejected as empty at every length. -/
theorem whitespace_over_limit_counterexample :
    (∀ c ∈ List.replicate 1001 ' ', pyIsSpace c = true) ∧
    Message.validateContent (List.replicate 1001 ' ') = .error .stringTooLong ∧
    Message.validateContent (List.replicate 1001 ' ') ≠ .error .contentEmpty := by
  have h1 : Message.validateContent (List.replicate 1001 ' ') = .error .stringTooLong := by rfl
  refine ⟨?_, h1, ?_⟩
  · intro c hc
    rw [List.eq_of_mem_replicate hc]
    rfl
  · rw [h1]
    simp

/-- C3 (amended): a whitespace-only content string whose raw length is
between 1 and 1000 is rejected as empty content; a whitespace-only string
longer than 1000 characters is rejected as exceeding the per-message length
limit, because the pydantic Field length constraints run on the raw value
before the trimming validator; the empty string is rejected as below the
minimum length. -/
theorem whitespace_rejection (v : Str) (hws : ∀ c ∈ v, pyIsSpace c = true) :
    (1 ≤ v.length → v.length ≤ 1000 →
      Message.validateContent v = .error .contentEmpty) ∧
    (1000 < v.length → Message.validateContent v = .error .stringTooLong) ∧
    (v.length = 0 → Message.validateContent v = .error .stringTooShort) := by
  have hstrip : pyStrip v = [] := by
    unfold pyStrip
    rw [List.dropWhile_eq_nil_iff.mpr hws]
    rfl
  refine ⟨?_, ?_, ?_⟩
  · intro hone hmax
    unfold Message.validateContent
    rw [if_neg (by omega), if_neg (by omega), if_pos hstrip]
  · intro hover
    unfold Message.validateContent
    rw [if_neg (by omega), if_pos (by omega)]
  · intro hzero
    unfold Message.validateContent
    rw [if_pos (by omega)]

/-- C3 witness: a single space is rejected as empty content. -/
theorem whitespace_rejection_witness :
    Message.validateContent ([' ']) = .error .contentEmpty :=
  (whitespace_rejection [' '] (by decide)).1 (by decide) (by decide)

/-- C4: clean_reply strips exactly one leading User: or Scammer: prefix at
the start of the string (case sensitive) and trims the remainder; a string
starting with neither is only trimmed, so later occurrences are untouched;
"User: hi there" becomes "hi there" and "Hi User: there" is unchanged apart
from the outer trim. -/
theorem clean_reply_contract :
    (∀ reply : Str, pyStartswith reply (("User:").toList) = true →
      clean_reply reply = pyStrip (reply.drop (("User:").toList).length)) ∧
    (∀ reply : Str, pyStartswith reply (("User:").toList) = false →
      pyStartswith reply (("Scammer:").toList) = true →
      clean_reply reply = pyStrip (reply.drop (("Scammer:").toList).length)) ∧
    (∀ reply : Str, pyStartswith reply (("User:").toList) = false →
      pyStartswith reply (("Scammer:").toList) = false →
      clean_reply reply = pyStrip reply) ∧
    clean_reply (("User: hi there").toList) = ("hi there").toList ∧
    clean_reply (("Hi User: there").toList) = ("Hi User: there").toList := by
  refine ⟨?_, ?_, ?_, by decide, by decide⟩
  · intro reply h
    unfold clean_reply
    rw [if_pos h]
  · intro reply h1 h2
    unfold clean_reply
    rw [if_neg (by rw [h1]; simp), if_pos h2]
  · intro reply h1 h2
    unfold clean_reply
    rw [if_neg (by rw [h1]; simp), if_neg (by rw [h2]; simp)]

/-- C4 witness: a concrete Scammer-prefixed reply is stripped of the prefix
and trimmed. -/
theorem clean_reply_contract_witness :
    clean_reply (("Scammer: ok then").toList) =
      pyStrip (((("Scammer: ok then").toList)).drop (("Scammer:").toList).length) :=
  clean_reply_contract.2.1 (("Scammer: ok then").toList) (by decide) (by decide)

/-- Helper: content validation succeeds exactly when the raw length is
between 1 and 1000 and the stripped content is non-empty. -/
theorem validateContent_ok_iff (v : Str) :
    isError (Message.validateContent v) = false ↔
      (1 ≤ v.length ∧ v.length ≤ 1000 ∧ pyStrip v ≠ []) := by
  unfold Message.validateContent
  split_ifs with h1 h2 h3
  · refine iff_of_false (by simp [isError]) ?_
    intro h
    omega
  · refine iff_of_false (by simp [isError]) ?_
    intro h
    omega
  · refine iff_of_false (by simp [isError]) ?_
    intro h
    exact h.2.2 h3
  · refine iff_of_true (by simp [isError]) ⟨by omega, by omega, h3⟩

/-- Helper: a successful content validation returns the stripped content. -/
theorem validateContent_ok_eq (v w : Str) (h : Message.validateContent v = .ok w) :
    w = pyStrip v := by
  unfold Message.validateContent at h
  split_ifs at h
  injection h with h2
  exact h2.symm

/-- Helper: a successful message-list validation returns the messages with
stripped contents, preserving roles and order. -/
theorem validateMessages_ok_map : ∀ (ms l : List Message), validateMessages ms = .ok l →
    l = ms.map fun m => ⟨m.role, pyStrip m.content⟩
  | [], l => by
    intro h
    injection h with h2
    subst h2
    rfl
  | m :: ms, l => by
    intro h
    unfold validateMessages at h
    cases hv : m.validate with
    | error e => rw [hv] at h; simp at h
    | ok m2 =>
      rw [hv] at h
      cases hr : validateMessages ms with
      | error e => rw [hr] at h; simp at h
      | ok ms2 =>
        rw [hr] at h
        injection h with h2
        subst h2
        have hm2 : m2 = ⟨m.role, pyStrip m.content⟩ := by
          unfold Message.validate at hv
          cases hc : Message.validateContent m.content with
          | error e => rw [hc] at hv; simp at hv
          | ok w =>
            rw [hc] at hv
            injection hv with h3
            rw [← h3, validateContent_ok_eq m.content w hc]
        rw [hm2, validateMessages_ok_map ms ms2 hr]
        simp

/-- Helper: message-list validation succeeds exactly when every message
passes the content checks. -/
theorem validateMessages_ok_iff : ∀ (ms : List Message),
    isError (validateMessages ms) = false ↔
      ∀ m ∈ ms, 1 ≤ m.content.length ∧ m.content.length ≤ 1000 ∧ pyStrip m.content ≠ []
  | [] => by simp [validateMessages, isError]
  | m :: ms => by
    unfold validateMessages
    cases hv : m.validate with
    | error e =>
      refine iff_of_false (by simp [isError]) ?_
      intro hall
      have hok := (validateContent_ok_iff m.content).mpr (hall m (List.mem_cons_self m ms))
      unfold Message.validate at hv
      cases hc : Message.validateContent m.content with
      | error e2 => rw [hc] at hok; simp [isError] at hok
      | ok w => rw [hc] at hv; simp at hv
    | ok m2 =>
      cases hr : validateMessages ms with
      | error e =>
        have ihr := validateMessages_ok_iff ms
        rw [hr] at ihr
        refine iff_of_false (by simp [isError]) ?_
        intro hall
        have : isError (Except.error e : Except ValErr (List Message)) = false :=
          ihr.mpr fun x hx => hall x (List.mem_cons_of_mem m hx)
        simp [isError] at this
      | ok ms2 =>
        have ihr := validateMessages_ok_iff ms
        rw [hr] at ihr
        refine iff_of_true (by simp [isError]) ?_
        intro x hx
        rcases List.mem_cons.mp hx with rfl | hx2
        · have hok : isError (Message.validateContent x.content) = false := by
            unfold Message.validate at hv
            cases hc : Message.validateContent x.content with
            | error e2 => rw [hc] at hv; simp at hv
            | ok w => simp [isError]
          exact (validateContent_ok_iff x.content).mp hok
        · exact (ihr.mp (by simp [isError])) x hx2

/-- C7 (amended): conversation validation rejects when the message count is 0
or above 50, when any message has raw content empty or longer than 1000
characters or content that is empty after trimming, or when the sum of the
trimmed content lengths exceeds the configured maximum; it passes exactly
when the count is in 1..50, every raw content length is in 1..1000, every
trimmed content is non-empty, and the trimmed lengths sum to at most the
maximum (the per-message 1000 bound applies to the raw content, not the
trimmed content, since the pydantic length constraints run before trimming). -/
theorem conversation_validate_characterization (maxConv : ℕ) (msgs : List Message) :
    isError (ConversationRequest.validate maxConv msgs) = false ↔
      (1 ≤ msgs.length ∧ msgs.length ≤ 50 ∧
       (∀ m ∈ msgs, 1 ≤ m.content.length ∧ m.content.length ≤ 1000 ∧
          pyStrip m.content ≠ []) ∧
       (msgs.map fun m => (pyStrip m.content).length).sum ≤ maxConv) := by
  unfold ConversationRequest.validate
  split_ifs with h1 h2
  · refine iff_of_false (by simp [isError]) ?_
    intro h
    omega
  · refine iff_of_false (by simp [isError]) ?_
    intro h
    exact absurd h.2.1 (by omega)
  · cases hv : validateMessages msgs with
    | error e =>
      refine iff_of_false (by simp [isError]) ?_
      intro h
      have := (validateMessages_ok_iff msgs).mpr h.2.2.1
      rw [hv] at this
      simp [isError] at this
    | ok ms =>
      dsimp only
      have hmap := validateMessages_ok_map msgs ms hv
      have hsum : (ms.map fun m => m.content.length).sum
          = (msgs.map fun m => (pyStrip m.content).length).sum := by
        rw [hmap, List.map_map]
        rfl
      by_cases h3 : maxConv < (ms.map fun m => m.content.length).sum
      · rw [if_pos h3]
        refine iff_of_false (by simp [isError]) ?_
        intro h
        rw [hsum] at h3
        exact absurd h.2.2.2 (by omega)
      · rw [if_neg h3]
        refine iff_of_true (by simp [isError]) ?_
        refine ⟨by omega, by omega, ?_, ?_⟩
        · exact (validateMessages_ok_iff msgs).mp (by rw [hv]; simp [isError])
        · rw [← hsum]
          omega

/-- C7 witness: a single message with content " hi " validates. -/
theorem conversation_validate_characterization_witness :
    isError (ConversationRequest.validate 5000 [⟨Role.user, (" hi ").toList⟩]) = false :=
  (conversation_validate_characterization 5000 [⟨Role.user, (" hi ").toList⟩]).mpr
    ⟨by decide, by decide, by decide, by decide⟩

set_option maxRecDepth 10000 in
/-- C7 counterexample: a single message whose content is one letter followed
by 1000 spaces satisfies every bound named by the claim (count 1, trimmed
content non-empty and of length at most 1000, total content length at most
5000), yet validation rejects it, because the raw content length 1001
violates the Field constraint max_length=1000 checked before trimming. -/
theorem conversation_validate_counterexample :
    (1 ≤ ([⟨Role.user, 'a' :: List.replicate 1000 ' '⟩] : List Message).length ∧
     ([⟨Role.user, 'a' :: List.replicate 1000 ' '⟩] : List Message).length ≤ 50) ∧
    pyStrip ('a' :: List.replicate 1000 ' ') = ['a'] ∧
    (pyStrip ('a' :: List.replicate 1000 ' ')).length ≤ 1000 ∧
    (([⟨Role.user, 'a' :: List.replicate 1000 ' '⟩] : List Message).map
        fun m => m.content.length).sum ≤ 5000 ∧
    (([⟨Role.user, 'a' :: List.replicate 1000 ' '⟩] : List Message).map
        fun m => (pyStrip m.content).length).sum ≤ 5000 ∧
    ConversationRequest.validate 5000 [⟨Role.user, 'a' :: List.replicate 1000 ' '⟩]
      = .error .stringTooLong := by
  have hstrip : pyStrip ('a' :: List.replicate 1000 ' ') = ['a'] := by rfl
  refine ⟨by decide, hstrip, ?_, ?_, ?_, by rfl⟩
  · rw [hstrip]
    decide
  · decide
  · show ((pyStrip ('a' :: List.replicate 1000 ' ')).length + 0) ≤ 5000
    rw [hstrip]
    decide

/-- C6: whenever the presented credential mismatches, or the rate limiter
rejects, or the payload fails validation, the endpoint makes no backend call
and reports a client error (401, 429 or 400/422), for both the classify and
the generate-reply endpoints: authentication, rate limiting and validation
are all decided before any backend invocation. -/
theorem client_failures_precede_backend
    (apiKey presented : Str) (window cap : ℤ) (st : List ℤ) (now : ℤ)
    (maxText : ℕ) (text : Str) (backend1 : Str → Option Str)
    (maxConv : ℕ) (conversation : List Message) (backend2 : Str → Option Str) :
    ((presented ≠ apiKey ∨ (is_allowed window cap st now).1 = false ∨
        isError (EmailInput.validate maxText text) = true) →
      (classify_email apiKey presented window cap st now maxText text
          backend1).backendCalled = false ∧
      resultIsClientError
        (classify_email apiKey presented window cap st now maxText text
          backend1).result = true) ∧
    ((presented ≠ apiKey ∨ (is_allowed window cap st now).1 = false ∨
        isError (ConversationRequest.validate maxConv conversation) = true) →
      (generate_reply_api apiKey presented window cap st now maxConv conversation
          backend2).backendCalled = false ∧
      resultIsClientError
        (generate_reply_api apiKey presented window cap st now maxConv conversation
          backend2).result = true) := by
  constructor
  · intro h
    by_cases h1 : presented = apiKey
    · by_cases h2 : (is_allowed window cap st now).1 = true
      · have hv : isError (EmailInput.validate maxText text) = true := by
          rcases h with ha | hr | hv
          · exact absurd h1 ha
          · rw [h2] at hr
            cases hr
          · exact hv
        cases hval : EmailInput.validate maxText text with
        | error e =>
          simp [classify_email, h1, h2, hval, resultIsClientError, ApiError.isClientError]
        | ok t =>
          rw [hval] at hv
          simp [isError] at hv
      · have h2f : (is_allowed window cap st now).1 = false := by
          cases hb : (is_allowed window cap st now).1
          · rfl
          · exact absurd hb h2
        simp [classify_email, h1, h2f, resultIsClientError, ApiError.isClientError]
    · simp [classify_email, h1, resultIsClientError, ApiError.isClientError]
  · intro h
    by_cases h1 : presented = apiKey
    · by_cases h2 : (is_allowed window cap st now).1 = true
      · have hv : isError (ConversationRequest.validate maxConv conversation) = true := by
          rcases h with ha | hr | hv
          · exact absurd h1 ha
          · rw [h2] at hr
            cases hr
          · exact hv
        cases hval : ConversationRequest.validate maxConv conversation with
        | error e =>
          simp [generate_reply_api, h1, h2, hval, resultIsClientError, ApiError.isClientError]
        | ok msgs =>
          rw [hval] at hv
          simp [isError] at hv
      · have h2f : (is_allowed window cap st now).1 = false := by
          cases hb : (is_allowed window cap st now).1
          · rfl
          · exact absurd hb h2
        simp [generate_reply_api, h1, h2f, resultIsClientError, ApiError.isClientError]
    · simp [generate_reply_api, h1, resultIsClientError, ApiError.isClientError]

/-- C6 witness: with a mismatching credential, both endpoints make no
backend call and report a client error at a concrete input. -/
theorem client_failures_precede_backend_witness :
    ((classify_email (("k").toList) (("bad").toList) 60 10 [] 0 2000 (("hello").toList)
        (fun _ => some (("x\ny").toList))).backendCalled = false ∧
     resultIsClientError
       (classify_email (("k").toList) (("bad").toList) 60 10 [] 0 2000 (("hello").toList)
        (fun _ => some (("x\ny").toList))).result = true) ∧
    ((generate_reply_api (("k").toList) (("bad").toList) 60 10 [] 0 5000
        [⟨Role.user, ("hi").toList⟩] (fun _ => some (("ok").toList))).backendCalled = false ∧
     resultIsClientError
       (generate_reply_api (("k").toList) (("bad").toList) 60 10 [] 0 5000
        [⟨Role.user, ("hi").toList⟩] (fun _ => some (("ok").toList))).result = true) :=
  ⟨(client_failures_precede_backend (("k").toList) (("bad").toList) 60 10 [] 0 2000
      (("hello").toList) (fun _ => some (("x\ny").toList)) 5000 [⟨Role.user, ("hi").toList⟩]
      (fun _ => some (("ok").toList))).1 (Or.inl (by decide)),
   (client_failures_precede_backend (("k").toList) (("bad").toList) 60 10 [] 0 2000
      (("hello").toList) (fun _ => some (("x\ny").toList)) 5000 [⟨Role.user, ("hi").toList⟩]
      (fun _ => some (("ok").toList))).2 (Or.inl (by decide))⟩

/-- Helper: a successful conversation validation is a successful
message-list validation with the same result. -/
theorem conversation_validate_ok_messages (maxConv : ℕ) (msgs l : List Message)
    (h : ConversationRequest.validate maxConv msgs = .ok l) :
    validateMessages msgs = .ok l := by
  unfold ConversationRequest.validate at h
  split_ifs at h
  cases hv : validateMessages msgs with
  | error e =>
    rw [hv] at h
    simp at h
  | ok ms =>
    rw [hv] at h
    dsimp only at h
    split_ifs at h
    injection h with h2
    rw [h2]

/-- Helper: a successful generate-reply outcome comes from a validated
conversation, a backend reply for its transcript whose cleanup is non-empty,
and carries the stripped cleaned reply and the transcript length. -/
theorem generate_reply_api_ok
    (apiKey presented : Str) (window cap : ℤ) (st : List ℤ) (now : ℤ)
    (maxConv : ℕ) (conversation : List Message) (backend : Str → Option Str)
    (r : ReplyResponse)
    (hres : (generate_reply_api apiKey presented window cap st now maxConv conversation
        backend).result = .ok r) :
    ∃ msgs raw,
      ConversationRequest.validate maxConv conversation = .ok msgs ∧
      backend (conversation_text msgs) = some raw ∧
      clean_reply raw ≠ [] ∧
      r = ⟨pyStrip (clean_reply raw), (conversation_text msgs).length⟩ := by
  unfold generate_reply_api at hres
  by_cases h1 : presented = apiKey
  · rw [if_pos h1] at hres
    by_cases h2 : (is_allowed window cap st now).1 = true
    · rw [if_pos h2] at hres
      cases hval : ConversationRequest.validate maxConv conversation with
      | error e =>
        rw [hval] at hres
        simp at hres
      | ok msgs =>
        rw [hval] at hres
        dsimp only at hres
        cases hb : backend (conversation_text msgs) with
        | none =>
          rw [hb] at hres
          simp at hres
        | some raw =>
          rw [hb] at hres
          dsimp only at hres
          by_cases hc : clean_reply raw = []
          · rw [if_pos hc] at hres
            simp at hres
          · rw [if_neg hc] at hres
            refine ⟨msgs, raw, rfl, hb, hc, ?_⟩
            injection hres with h3
            exact h3.symm
    · rw [if_neg h2] at hres
      simp at hres
  · rw [if_neg h1] at hres
    simp at hres

/-- C8: for every valid conversation request that returns successfully, the
validated messages are the input messages with stripped contents in input
order, and the returned conversation length is the character count of the
transcript that renders each message as Role colon space content with display
role casing, joined by newlines; in the concrete scenario, a single scammer
message and a backend stub replying with a User prefix yield the cleaned
reply and the length of the rendered transcript. -/
theorem generate_reply_transcript_length :
    (∀ (apiKey presented : Str) (window cap : ℤ) (st : List ℤ) (now : ℤ)
       (maxConv : ℕ) (conversation : List Message) (backend : Str → Option Str)
       (msgs : List Message) (r : ReplyResponse),
      ConversationRequest.validate maxConv conversation = .ok msgs →
      (generate_reply_api apiKey presented window cap st now maxConv conversation
         backend).result = .ok r →
      msgs = conversation.map (fun m => ⟨m.role, pyStrip m.content⟩) ∧
      r.conversation_length = (conversation_text msgs).length) ∧
    (generate_reply_api (("k").toList) (("k").toList) 60 10 [] 0 5000
        [⟨Role.scammer, ("Send me your bank info").toList⟩]
        (fun _ => some (("User: I don\x27t have online banking").toList))).result
      = .ok ⟨("I don\x27t have online banking").toList,
             (("Scammer: Send me your bank info").toList).length⟩ := by
  constructor
  · intro apiKey presented window cap st now maxConv conversation backend msgs r hval hres
    obtain ⟨msgs2, raw, hval2, hb, hc, hr⟩ :=
      generate_reply_api_ok apiKey presented window cap st now maxConv conversation
        backend r hres
    rw [hval] at hval2
    injection hval2 with heq
    subst heq
    refine ⟨?_, ?_⟩
    · exact validateMessages_ok_map conversation msgs
        (conversation_validate_ok_messages maxConv conversation msgs hval)
    · rw [hr]
  · rfl

/-- C8 witness: the general part applied to the concrete scenario input. -/
theorem generate_reply_transcript_length_witness :
    ([⟨Role.scammer, ("Send me your bank info").toList⟩] : List Message)
      = ([⟨Role.scammer, ("Send me your bank info").toList⟩] : List Message).map
          (fun m => ⟨m.role, pyStrip m.content⟩) ∧
    (⟨("I don\x27t have online banking").toList,
      (("Scammer: Send me your bank info").toList).length⟩ : ReplyResponse).conversation_length
      = (conversation_text [⟨Role.scammer, ("Send me your bank info").toList⟩]).length :=
  generate_reply_transcript_length.1 (("k").toList) (("k").toList) 60 10 [] 0 5000
    [⟨Role.scammer, ("Send me your bank info").toList⟩]
    (fun _ => some (("User: I don\x27t have online banking").toList))
    [⟨Role.scammer, ("Send me your bank info").toList⟩]
    ⟨("I don\x27t have online banking").toList,
      (("Scammer: Send me your bank info").toList).length⟩
    (by rfl) (by rfl)

/-- C9: for every backend reply text, a validated, authenticated and
rate-admitted generate-reply request succeeds exactly when the reply is
non-empty after cleanup: an empty cleaned reply yields the server-side
empty-generation failure, and a non-empty cleaned reply yields the stripped
reply together with the transcript length. -/
theorem generate_reply_empty_iff
    (apiKey : Str) (window cap : ℤ) (st : List ℤ) (now : ℤ)
    (maxConv : ℕ) (conversation msgs : List Message) (raw : Str)
    (hval : ConversationRequest.validate maxConv conversation = .ok msgs)
    (hrate : (is_allowed window cap st now).1 = true) :
    (clean_reply raw = [] →
      (generate_reply_api apiKey apiKey window cap st now maxConv conversation
         (fun _ => some raw)).result = .error .emptyGeneration) ∧
    (clean_reply raw ≠ [] →
      (generate_reply_api apiKey apiKey window cap st now maxConv conversation
         (fun _ => some raw)).result
        = .ok ⟨pyStrip (clean_reply raw), (conversation_text msgs).length⟩) ∧
    (isError (generate_reply_api apiKey apiKey window cap st now maxConv conversation
         (fun _ => some raw)).result = false ↔ clean_reply raw ≠ []) := by
  have hrun : (generate_reply_api apiKey apiKey window cap st now maxConv conversation
      (fun _ => some raw)) =
      if clean_reply raw = [] then
        ⟨.error .emptyGeneration, (is_allowed window cap st now).2, true⟩
      else
        ⟨.ok ⟨pyStrip (clean_reply raw), (conversation_text msgs).length⟩,
          (is_allowed window cap st now).2, true⟩ := by
    unfold generate_reply_api
    rw [if_pos rfl, if_pos hrate, hval]
  rw [hrun]
  by_cases hc : clean_reply raw = []
  · rw [if_pos hc]
    refine ⟨fun _ => rfl, fun h => absurd hc h, ?_⟩
    simp [isError, hc]
  · rw [if_neg hc]
    refine ⟨fun h => absurd h hc, fun _ => rfl, ?_⟩
    simp [isError, hc]

/-- C9 witness: a backend stub whose reply cleans to the empty string makes
the concrete request fail with the empty-generation error. -/
theorem generate_reply_empty_iff_witness :
    (generate_reply_api (("k").toList) (("k").toList) 60 10 [] 0 5000
        [⟨Role.scammer, ("hi").toList⟩] (fun _ => some (("User:  ").toList))).result
      = .error .emptyGeneration :=
  (generate_reply_empty_iff (("k").toList) 60 10 [] 0 5000
      [⟨Role.scammer, ("hi").toList⟩] [⟨Role.scammer, ("hi").toList⟩] (("User:  ").toList)
      (by rfl) (by rfl)).1 (by rfl)

end Scam
